import Mathlib

/-! Shallow embedding of `src/agent/api/api_client.go` (package `api` of the
amazon-ecs-agent repository): the ECS control-plane client.  Pure data and
request construction are translated directly from the source; the external
collaborators (the signed RPC channel, the EC2 metadata provider and the
CPU/memory probes) are modelled as explicit oracles supplying the outcome of
each external call, and every embedded operation additionally returns the
trace of remote calls it performed, so that call-count and call-argument
properties can be stated and decided. -/

set_option maxHeartbeats 1000000

/-- Two's-complement truncation of a mathematical integer to the Go type
int32, as performed by a Go conversion such as `int32(x)`. -/
def toInt32 (n : Int) : Int := (n + 2 ^ 31) % 2 ^ 32 - 2 ^ 31

/-- Modelled from the spec: the well-known default cluster name
(`config.DEFAULT_CLUSTER_NAME`, defined in the `config` package, which is not
under `src/`).  Section 2 of the spec calls it "a well-known default cluster
name" and the example scenario of section 8 uses the name "default". -/
def DEFAULT_CLUSTER_NAME : String := "default"

/-- Modelled from the spec: the internal task lifecycle status vocabulary
(`TaskStatus` in `api/types.go`, which is not under `src/`).  Per section 3
of the spec the internal states are an unset state, intermediate
(pulled/created) states, a running state and terminal stopped/dead states. -/
inductive TaskStatus
  | statusNone
  | pulled
  | created
  | running
  | stopped
  | dead
  deriving DecidableEq

/-- Modelled from the spec: the wire name of each internal task state
(`TaskStatus.String()` in `api/types.go`, not under `src/`): the running
state is named "RUNNING", the terminal states "STOPPED" and "DEAD", and every
other state has a name that is none of these. -/
def TaskStatus.toString : TaskStatus → String
  | TaskStatus.statusNone => "NONE"
  | TaskStatus.pulled => "PULLED"
  | TaskStatus.created => "CREATED"
  | TaskStatus.running => "RUNNING"
  | TaskStatus.stopped => "STOPPED"
  | TaskStatus.dead => "DEAD"

/-- Source name of the unset task status (`TaskStatusNone`). -/
def TaskStatusNone : TaskStatus := TaskStatus.statusNone

/-- Modelled from the spec: the internal container lifecycle status
vocabulary (`ContainerStatus` in `api/types.go`, not under `src/`), shaped
like the task vocabulary per section 3 of the spec. -/
inductive ContainerStatus
  | statusNone
  | pulled
  | created
  | running
  | stopped
  | dead
  deriving DecidableEq

/-- Modelled from the spec: the wire name of each internal container state
(`ContainerStatus.String()` in `api/types.go`, not under `src/`). -/
def ContainerStatus.toString : ContainerStatus → String
  | ContainerStatus.statusNone => "NONE"
  | ContainerStatus.pulled => "PULLED"
  | ContainerStatus.created => "CREATED"
  | ContainerStatus.running => "RUNNING"
  | ContainerStatus.stopped => "STOPPED"
  | ContainerStatus.dead => "DEAD"

/-- Port binding of a container, as read by `SubmitContainerStateChange`
(`PortBinding` in `api/types.go`, not under `src/`; fields as read by the
source: `BindIp`, `HostPort`, `ContainerPort`).  The two ports are Go uint16
values, so on every source-typed input they lie below 2^16 and the source's
`int32(...)` conversions are exact. -/
structure PortBinding where
  bindIp : String
  hostPort : Nat
  containerPort : Nat
  deriving DecidableEq

/-- State-change event handed to the submitters (`ContainerStateChange` in
`api/types.go`, not under `src/`; fields exactly as read by the source file:
`TaskArn`, `ContainerName`, `Status`, `TaskStatus`, `ExitCode`,
`PortBindings`). -/
structure ContainerStateChange where
  taskArn : String
  containerName : String
  status : ContainerStatus
  taskStatus : TaskStatus
  exitCode : Option Int
  portBindings : List PortBinding
  deriving DecidableEq

/-- Embeds the two-line status translation shared by both submitters:
`stat := status.String()` followed by `if stat == "DEAD" { stat = "STOPPED" }`. -/
def mapStatusString (s : String) : String := if s = "DEAD" then "STOPPED" else s

/-- Resource descriptor of a registration request (`svc.Resource`, from the
autogenerated service model, not under `src/`; fields exactly as set by
`registerContainerInstance`: name, type, integer value, string-set value). -/
structure Resource where
  name : String
  type : String
  integerValue : Option Int
  stringSetValue : Option (List String)
  deriving DecidableEq

/-- Registration request (`svc.RegisterContainerInstanceRequest`; fields as
set by `registerContainerInstance`). -/
structure RegisterContainerInstanceRequest where
  cluster : String
  instanceIdentityDocument : String
  instanceIdentityDocumentSignature : String
  totalResources : List Resource
  deriving DecidableEq

/-- Network binding of a container state-change request
(`svc.NetworkBinding`; fields as set by the source: `BindIP`, `HostPort`,
`ContainerPort`).  The ports are Go int32 values on the wire. -/
structure NetworkBinding where
  bindIP : String
  hostPort : Int
  containerPort : Int
  deriving DecidableEq

/-- Task state-change request (`svc.SubmitTaskStateChangeRequest`; fields as
set by `SubmitTaskStateChange`). -/
structure SubmitTaskRequest where
  task : String
  status : String
  cluster : String
  deriving DecidableEq

/-- Container state-change request
(`svc.SubmitContainerStateChangeRequest`; fields as set by
`SubmitContainerStateChange`). -/
structure SubmitContainerRequest where
  task : String
  containerName : String
  status : String
  cluster : String
  exitCode : Option Int
  networkBindings : List NetworkBinding
  deriving DecidableEq

/-- Configuration fields of `config.Config` read and written by the client:
the configured cluster identifier `ClusterArn` and the reserved port list. -/
structure Config where
  clusterArn : String
  reservedPorts : List Nat
  deriving DecidableEq

/-- Embeds `ApiECSClient`: the client holds its configuration (the credential
provider plays no role in the embedded decision logic). -/
structure ApiECSClient where
  config : Config
  insecureSkipVerify : Bool
  deriving DecidableEq

/-- Cluster record of a `DescribeClusters` response, as read by
`describeCluster`: name, arn and status. -/
structure ClusterDesc where
  clusterName : String
  clusterArn : String
  status : String
  deriving DecidableEq

/-- Origin of an error wrapped by `NewStateChangeError`: either the locally
detected invalid input of `SubmitTaskStateChange`, or a failure of the
transport (service-client construction or the RPC itself). -/
inductive ErrorCause
  | validation (msg : String)
  | transport (msg : String)
  deriving DecidableEq

/-- State-change submission error (`NewStateChangeError`), carrying its
underlying cause. -/
structure StateChangeError where
  cause : ErrorCause
  deriving DecidableEq

/-- Modelled from the spec: retriability of a state-change submission error
(the `utils.RetriableError` classification code is not under `src/`).  Per
section 7 of the spec, validation errors are non-retriable and transport
errors at a submission call site are retriable. -/
def StateChangeError.retriable : StateChangeError → Bool
  | ⟨ErrorCause.validation _⟩ => false
  | ⟨ErrorCause.transport _⟩ => true

/-- Outcome oracle for one submission call: whether `serviceClient()` fails
(the dialer error, which occurs before any service RPC), and otherwise
whether the RPC itself fails. -/
structure SubmitEnv where
  dialerError : Option String
  submitError : Option String
  deriving DecidableEq

/-- Result of an embedded submission: the returned `utils.RetriableError`
value (`none` embeds Go's nil), the number of service RPCs performed, and
the request that was built for sending (if any). -/
structure SubmitOutcome (Req : Type) where
  result : Option StateChangeError
  networkCalls : Nat
  request : Option Req
  deriving DecidableEq

/-- Embeds the shared tail of both submitters: build the service client with
`client.serviceClient()` (a dialer failure is wrapped by
`NewStateChangeError` and returned before any service RPC), then perform the
RPC, wrapping any error with `NewStateChangeError` and returning nil on
success. -/
def submitOverWire {Req : Type} (env : SubmitEnv) (req : Req) : SubmitOutcome Req :=
  match env.dialerError with
  | some e => ⟨some ⟨ErrorCause.transport e⟩, 0, some req⟩
  | none =>
      match env.submitError with
      | some e => ⟨some ⟨ErrorCause.transport e⟩, 1, some req⟩
      | none => ⟨none, 1, some req⟩

/-- Outcome oracle for the local probes of `registerContainerInstance`: the
CPU count (`runtime.NumCPU()`), the result of `system.ReadMemInfo` (total
bytes plus error flag), and the two EC2 metadata reads, each returning bytes
and possibly an error, as Go's `ReadResource` does (the signature read
outcome is recorded even though its error is only logged by the source). -/
structure MetadataEnv where
  numCPU : Nat
  memTotalBytes : Nat
  memInfoErr : Bool
  iidBytes : String
  iidErr : Bool
  iidSigBytes : String
  iidSigErr : Bool
  deriving DecidableEq

/-- Embeds `getCpuAndMemory`: memory is the total in megabytes truncated to
int32, replaced by zero when the probe reported an error; cpu is the core
count times 1024, truncated to int32. -/
def getCpuAndMemory (env : MetadataEnv) : Int × Int :=
  let mem := toInt32 (Int.ofNat (env.memTotalBytes / 1024 / 1024))
  let mem := if env.memInfoErr then 0 else mem
  let cpu := env.numCPU * 1024
  (toInt32 (Int.ofNat cpu), mem)

/-- Modelled from the spec: `utils.Uint16SliceToStringSlice` (the `utils`
package is not under `src/`) renders each reserved port as its decimal
string, per the spec's "PORTS (string set, the node's reserved port
list)". -/
def uint16SliceToStringSlice (l : List Nat) : List String :=
  l.map (fun n => toString n)

/-- Embeds the request construction of `registerContainerInstance`
(src/agent/api/api_client.go lines 179-240): the identity document (empty
bytes when its read failed), the signature (read only when the document was
retrieved; a failed signature read keeps the returned bytes and only logs),
and exactly the three resources CPU, MEMORY and PORTS.  The network send of
the request is abstracted by the `Oracle` of `RegisterContainerInstance`. -/
def registerContainerInstance (client : ApiECSClient) (env : MetadataEnv)
    (clusterArn : String) : RegisterContainerInstanceRequest :=
  let instanceIdentityDoc := if env.iidErr then "" else env.iidBytes
  let instanceIdentitySignature := if env.iidErr then "" else env.iidSigBytes
  let cpuMem := getCpuAndMemory env
  let cpuResource : Resource := ⟨"CPU", "INTEGER", some cpuMem.1, none⟩
  let memResource : Resource := ⟨"MEMORY", "INTEGER", some cpuMem.2, none⟩
  let portResource : Resource :=
    ⟨"PORTS", "STRINGSET", none, some (uint16SliceToStringSlice client.config.reservedPorts)⟩
  ⟨clusterArn, instanceIdentityDoc, instanceIdentitySignature,
    [cpuResource, memResource, portResource]⟩

/-- Outcome oracle for the remote calls of the registration bootstrap: the
result of the n-th `registerContainerInstance` send (instance arn or error),
the single `DescribeClusters` response (the listed clusters, or an error
covering both a service-client failure and an RPC failure), and the single
`CreateCluster` result (cluster arn or error). -/
structure Oracle where
  registerResults : Nat → Except String String
  describeResponse : Except String (List ClusterDesc)
  createResult : Except String String

/-- Trace of the remote operations invoked by one bootstrap run: the cluster
argument of each `registerContainerInstance` send, of each `describeCluster`
query and of each `CreateCluster` call, in call order. -/
structure Trace where
  registerCalls : List String
  describeCalls : List String
  createCalls : List String
  deriving DecidableEq

deriving instance DecidableEq for Except

/-- Result of an embedded `RegisterContainerInstance` run: the returned
value (instance arn or error), the client configuration after the deferred
write, and the trace of remote calls. -/
structure RegOutcome where
  result : Except String String
  config : Config
  trace : Trace
  deriving DecidableEq

/-- Embeds `describeCluster` (src/agent/api/api_client.go lines 121-144):
propagate a service-client or RPC error; otherwise scan the response for the
first cluster whose name matches and return its arn and status, or empty
strings when no cluster matches (the cluster is absent). -/
def describeCluster (clusterName : String) (resp : Except String (List ClusterDesc)) :
    Except String (String × String) :=
  match resp with
  | Except.error e => Except.error e
  | Except.ok clusters =>
      match clusters.find? (fun c => c.clusterName == clusterName) with
      | some c => Except.ok (c.clusterArn, c.status)
      | none => Except.ok ("", "")

/-- Embeds `RegisterContainerInstance` (src/agent/api/api_client.go lines
145-177).  When the configured `ClusterArn` is empty the source assigns the
outer `clusterArn` variable the default cluster name and registers a
deferred closure writing that outer variable into `client.config.ClusterArn`
on every return; the results of `describeCluster` and of `CreateCluster` are
bound with `:=` inside the block and therefore shadow the outer variable, so
the deferred write always stores the default name and the final
`registerContainerInstance` call outside the block also reads the default
name.  `CreateCluster` receives the shadowed (described) arn and is reached
whenever the describe status is empty or "ACTIVE"; the inactive-status check
returns the policy error before it.  Each branch returns the value the
source returns together with the trace of remote calls made on that path. -/
def RegisterContainerInstance (client : ApiECSClient) (o : Oracle) : RegOutcome :=
  if client.config.clusterArn = "" then
    match o.registerResults 0 with
    | Except.ok containerInstanceArn =>
        ⟨Except.ok containerInstanceArn,
         ⟨DEFAULT_CLUSTER_NAME, client.config.reservedPorts⟩,
         ⟨[DEFAULT_CLUSTER_NAME], [], []⟩⟩
    | Except.error _ =>
        match describeCluster DEFAULT_CLUSTER_NAME o.describeResponse with
        | Except.error e =>
            ⟨Except.error e,
             ⟨DEFAULT_CLUSTER_NAME, client.config.reservedPorts⟩,
             ⟨[DEFAULT_CLUSTER_NAME], [DEFAULT_CLUSTER_NAME], []⟩⟩
        | Except.ok (clusterArnInner, clusterStatus) =>
            if clusterStatus ≠ "" ∧ clusterStatus ≠ "ACTIVE" then
              ⟨Except.error "Cluster is not available for registration",
               ⟨DEFAULT_CLUSTER_NAME, client.config.reservedPorts⟩,
               ⟨[DEFAULT_CLUSTER_NAME], [DEFAULT_CLUSTER_NAME], []⟩⟩
            else
              match o.createResult with
              | Except.error e =>
                  ⟨Except.error e,
                   ⟨DEFAULT_CLUSTER_NAME, client.config.reservedPorts⟩,
                   ⟨[DEFAULT_CLUSTER_NAME], [DEFAULT_CLUSTER_NAME], [clusterArnInner]⟩⟩
              | Except.ok _ =>
                  ⟨o.registerResults 1,
                   ⟨DEFAULT_CLUSTER_NAME, client.config.reservedPorts⟩,
                   ⟨[DEFAULT_CLUSTER_NAME, DEFAULT_CLUSTER_NAME], [DEFAULT_CLUSTER_NAME],
                    [clusterArnInner]⟩⟩
  else
    ⟨o.registerResults 0, client.config, ⟨[client.config.clusterArn], [], []⟩⟩

/-- Embeds `SubmitTaskStateChange` (src/agent/api/api_client.go lines
242-277): reject an unset task status with `NewStateChangeError`; translate
the status and silently skip (nil, no RPC) every status mapping to neither
"STOPPED" nor "RUNNING"; otherwise build the request carrying the task arn,
the mapped status and the configured cluster identifier, and send it. -/
def SubmitTaskStateChange (client : ApiECSClient) (env : SubmitEnv)
    (change : ContainerStateChange) : SubmitOutcome SubmitTaskRequest :=
  if change.taskStatus = TaskStatusNone then
    ⟨some ⟨ErrorCause.validation "SubmitTaskStateChange called with an invalid change"⟩, 0, none⟩
  else if mapStatusString change.taskStatus.toString ≠ "STOPPED" ∧
          mapStatusString change.taskStatus.toString ≠ "RUNNING" then
    ⟨none, 0, none⟩
  else
    submitOverWire env
      ⟨change.taskArn, mapStatusString change.taskStatus.toString, client.config.clusterArn⟩

/-- Embeds `SubmitContainerStateChange` (src/agent/api/api_client.go lines
279-318): translate the container status and silently skip (nil, no RPC)
every status mapping to neither "STOPPED" nor "RUNNING"; otherwise build the
request carrying the task arn, container name, mapped status, configured
cluster identifier, the exit code (converted to int32 only when present) and
one network binding per port binding, element-wise in order (the uint16
ports converted to int32, which is exact), and send it. -/
def SubmitContainerStateChange (client : ApiECSClient) (env : SubmitEnv)
    (change : ContainerStateChange) : SubmitOutcome SubmitContainerRequest :=
  if mapStatusString change.status.toString ≠ "STOPPED" ∧
     mapStatusString change.status.toString ≠ "RUNNING" then
    ⟨none, 0, none⟩
  else
    submitOverWire env
      ⟨change.taskArn, change.containerName, mapStatusString change.status.toString,
       client.config.clusterArn, change.exitCode.map toInt32,
       change.portBindings.map
         (fun b => ⟨b.bindIp, Int.ofNat b.hostPort, Int.ofNat b.containerPort⟩)⟩

/-- Client fixture with an empty configured cluster identifier. -/
def emptyClusterClient : ApiECSClient := ⟨⟨"", [80]⟩, false⟩

/-- Client fixture with a non-empty configured cluster identifier. -/
def namedClusterClient : ApiECSClient := ⟨⟨"my-cluster", []⟩, false⟩

/-- Client fixture for the state-change submitters. -/
def subClient : ApiECSClient := ⟨⟨"cluster-arn", []⟩, false⟩

/-- Submission environment fixture in which the dialer and the RPC both
succeed. -/
def okSubmitEnv : SubmitEnv := ⟨none, none⟩

/-- Oracle fixture: the optimistic registration fails, the describe reports
the default cluster with status "ACTIVE", and creation and the second
registration succeed. -/
def activeClusterOracle : Oracle :=
  ⟨fun n => if n = 0 then Except.error "ClientException" else Except.ok "instance-arn",
   Except.ok [⟨"default", "arn:aws:ecs:us-east-1:123456789012:cluster/default", "ACTIVE"⟩],
   Except.ok "arn:aws:ecs:us-east-1:123456789012:cluster/default"⟩

/-- Oracle fixture: the optimistic registration fails and the describe
response lists no matching cluster (the cluster is absent). -/
def absentClusterOracle : Oracle :=
  ⟨fun n => if n = 0 then Except.error "ClusterNotFoundException" else Except.ok "instance-arn",
   Except.ok [],
   Except.ok "arn:aws:ecs:us-east-1:123456789012:cluster/default"⟩

/-- Oracle fixture: the optimistic registration fails and the describe
reports the default cluster with the non-empty, non-"ACTIVE" status
"INACTIVE". -/
def inactiveClusterOracle : Oracle :=
  ⟨fun _ => Except.error "denied",
   Except.ok [⟨"default", "arn:aws:ecs:us-east-1:123456789012:cluster/default", "INACTIVE"⟩],
   Except.ok ""⟩

/-- Oracle fixture: every registration attempt fails with a transport
error. -/
def directRegisterOracle : Oracle :=
  ⟨fun _ => Except.error "AccessDeniedException", Except.ok [], Except.ok ""⟩

/-- State-change fixture whose task and container statuses are both
unset. -/
def noneStatusChange : ContainerStateChange :=
  ⟨"task-arn", "container-name", ContainerStatus.statusNone, TaskStatus.statusNone,
   none, []⟩

/-- State-change fixture whose task and container statuses are both the
intermediate created state, which maps to neither "RUNNING" nor
"STOPPED". -/
def createdStatusChange : ContainerStateChange :=
  ⟨"task-arn", "container-name", ContainerStatus.created, TaskStatus.created, some 0, []⟩

/-- State-change fixture in the running state carrying an exit code and two
port bindings. -/
def runningChangeTwoBindings : ContainerStateChange :=
  ⟨"task-arn", "container-name", ContainerStatus.running, TaskStatus.running, some 0,
   [⟨"0.0.0.0", 8080, 80⟩, ⟨"10.0.0.1", 443, 8443⟩]⟩

/-- The request built by a submission is handed to the wire layer unchanged,
whatever the dialer and RPC outcomes. -/
theorem submitOverWire_request {Req : Type} (env : SubmitEnv) (req : Req) :
    (submitOverWire env req).request = some req := by
  unfold submitOverWire
  cases env.dialerError with
  | some e => rfl
  | none =>
      cases env.submitError with
      | some e => rfl
      | none => rfl

/-- C1: the claim states that with an empty configured cluster identifier,
when the optimistic registration fails and the describe reports cluster
status "ACTIVE", registration is retried against the arn returned by the
describe and `CreateCluster` is never invoked.  Evaluating the embedded code
at such an input shows that the code instead invokes `CreateCluster` exactly
once, passing the described cluster arn as the cluster-name argument, and
then retries registration against the default cluster name rather than the
described arn: the claim captures the intent of the surrounding code
comments, and the code diverges from it. -/
theorem C1_active_cluster_code_behavior :
    (RegisterContainerInstance emptyClusterClient activeClusterOracle).trace.createCalls =
      ["arn:aws:ecs:us-east-1:123456789012:cluster/default"] ∧
    (RegisterContainerInstance emptyClusterClient activeClusterOracle).trace.registerCalls =
      ["default", "default"] ∧
    (RegisterContainerInstance emptyClusterClient activeClusterOracle).result =
      Except.ok "instance-arn" :=
  ⟨rfl, rfl, rfl⟩

/-- C2 counterexample: the unset task status maps to neither "RUNNING" nor
"STOPPED", yet `SubmitTaskStateChange` on a change carrying it returns a
state-change error rather than nil, refuting the claim as stated for task
changes. -/
theorem C2_counterexample :
    mapStatusString TaskStatusNone.toString ≠ "RUNNING" ∧
    mapStatusString TaskStatusNone.toString ≠ "STOPPED" ∧
    (SubmitTaskStateChange subClient okSubmitEnv noneStatusChange).result ≠ none := by
  refine ⟨by decide, by decide, by decide⟩

/-- C2 (amended): for every task state change whose status is set (not the
unset status, which is instead rejected with a validation error) and maps to
neither "RUNNING" nor "STOPPED", and for every container state change whose
status maps to neither "RUNNING" nor "STOPPED", the submitters perform zero
network calls and return nil. -/
theorem C2_unmapped_statuses_silently_skipped (client : ApiECSClient) (env : SubmitEnv)
    (change : ContainerStateChange)
    (htask : change.taskStatus ≠ TaskStatusNone)
    (ht1 : mapStatusString change.taskStatus.toString ≠ "RUNNING")
    (ht2 : mapStatusString change.taskStatus.toString ≠ "STOPPED")
    (hc1 : mapStatusString change.status.toString ≠ "RUNNING")
    (hc2 : mapStatusString change.status.toString ≠ "STOPPED") :
    SubmitTaskStateChange client env change = ⟨none, 0, none⟩ ∧
    SubmitContainerStateChange client env change = ⟨none, 0, none⟩ := by
  unfold SubmitTaskStateChange SubmitContainerStateChange
  rw [if_neg htask, if_pos ⟨ht2, ht1⟩, if_pos ⟨hc2, hc1⟩]
  exact ⟨rfl, rfl⟩

/-- C2 witness: a change in the created state is silently skipped by both
submitters. -/
theorem C2_witness :
    SubmitTaskStateChange subClient okSubmitEnv createdStatusChange = ⟨none, 0, none⟩ ∧
    SubmitContainerStateChange subClient okSubmitEnv createdStatusChange = ⟨none, 0, none⟩ :=
  C2_unmapped_statuses_silently_skipped subClient okSubmitEnv createdStatusChange
    (by decide) (by decide) (by decide) (by decide) (by decide)

/-- C3: a task state change with the unset status is rejected immediately:
`SubmitTaskStateChange` returns the validation state-change error, which is
non-retriable, performs zero network calls and builds no request, for all
other fields of the change. -/
theorem C3_unset_task_status_rejected (client : ApiECSClient) (env : SubmitEnv)
    (change : ContainerStateChange) (h : change.taskStatus = TaskStatusNone) :
    SubmitTaskStateChange client env change =
      ⟨some ⟨ErrorCause.validation "SubmitTaskStateChange called with an invalid change"⟩,
       0, none⟩ ∧
    StateChangeError.retriable
      ⟨ErrorCause.validation "SubmitTaskStateChange called with an invalid change"⟩
      = false := by
  unfold SubmitTaskStateChange
  rw [if_pos h]
  exact ⟨rfl, rfl⟩

/-- C3 witness: the rejection at the concrete unset-status change. -/
theorem C3_witness :
    SubmitTaskStateChange subClient okSubmitEnv noneStatusChange =
      ⟨some ⟨ErrorCause.validation "SubmitTaskStateChange called with an invalid change"⟩,
       0, none⟩ ∧
    StateChangeError.retriable
      ⟨ErrorCause.validation "SubmitTaskStateChange called with an invalid change"⟩
      = false :=
  C3_unset_task_status_rejected subClient okSubmitEnv noneStatusChange rfl

/-- C4: every registration request contains exactly three resource
descriptors, named "CPU", "MEMORY" and "PORTS", of kinds INTEGER, INTEGER
and STRINGSET respectively, for all configurations, cluster arguments and
probe outcomes. -/
theorem C4_exactly_three_resources (client : ApiECSClient) (env : MetadataEnv)
    (clusterArn : String) :
    (registerContainerInstance client env clusterArn).totalResources.length = 3 ∧
    (registerContainerInstance client env clusterArn).totalResources.map Resource.name =
      ["CPU", "MEMORY", "PORTS"] ∧
    (registerContainerInstance client env clusterArn).totalResources.map Resource.type =
      ["INTEGER", "INTEGER", "STRINGSET"] :=
  ⟨rfl, rfl, rfl⟩

/-- C5: with an empty configured cluster identifier, when the optimistic
registration fails and the describe reports an empty status (in particular
when the cluster is absent), `CreateCluster` is called exactly once, any
creation error is propagated to the caller unmodified, and on successful
creation registration is retried against the resolved cluster identifier,
the default cluster name, which is also persisted into the
configuration. -/
theorem C5_absent_cluster_created (client : ApiECSClient) (o : Oracle) (e a : String)
    (hempty : client.config.clusterArn = "")
    (hreg : o.registerResults 0 = Except.error e)
    (hdesc : describeCluster DEFAULT_CLUSTER_NAME o.describeResponse = Except.ok (a, "")) :
    (RegisterContainerInstance client o).trace.createCalls = [a] ∧
    (RegisterContainerInstance client o).config.clusterArn = DEFAULT_CLUSTER_NAME ∧
    (match o.createResult with
     | Except.error e2 =>
         (RegisterContainerInstance client o).result = Except.error e2 ∧
         (RegisterContainerInstance client o).trace.registerCalls = [DEFAULT_CLUSTER_NAME]
     | Except.ok _ =>
         (RegisterContainerInstance client o).trace.registerCalls =
           [DEFAULT_CLUSTER_NAME, DEFAULT_CLUSTER_NAME] ∧
         (RegisterContainerInstance client o).result = o.registerResults 1) := by
  unfold RegisterContainerInstance
  rw [hempty, hreg, hdesc]
  cases o.createResult with
  | error e2 => exact ⟨rfl, rfl, rfl, rfl⟩
  | ok arn2 => exact ⟨rfl, rfl, rfl, rfl⟩

/-- C5 witness: the absent-cluster bootstrap at a concrete oracle. -/
theorem C5_witness :
    (RegisterContainerInstance emptyClusterClient absentClusterOracle).trace.createCalls =
      [""] ∧
    (RegisterContainerInstance emptyClusterClient absentClusterOracle).config.clusterArn =
      DEFAULT_CLUSTER_NAME ∧
    (match absentClusterOracle.createResult with
     | Except.error e2 =>
         (RegisterContainerInstance emptyClusterClient absentClusterOracle).result =
           Except.error e2 ∧
         (RegisterContainerInstance emptyClusterClient absentClusterOracle).trace.registerCalls =
           [DEFAULT_CLUSTER_NAME]
     | Except.ok _ =>
         (RegisterContainerInstance emptyClusterClient absentClusterOracle).trace.registerCalls =
           [DEFAULT_CLUSTER_NAME, DEFAULT_CLUSTER_NAME] ∧
         (RegisterContainerInstance emptyClusterClient absentClusterOracle).result =
           absentClusterOracle.registerResults 1) :=
  C5_absent_cluster_created emptyClusterClient absentClusterOracle
    "ClusterNotFoundException" "" rfl rfl rfl

/-- C6: for every non-empty configured cluster identifier, the bootstrap
performs exactly one registration attempt against that identifier, never
queries `DescribeClusters` nor calls `CreateCluster`, propagates the
attempt's result (in particular any error) to the caller unmodified, and
leaves the configuration untouched. -/
theorem C6_nonempty_cluster_direct (client : ApiECSClient) (o : Oracle)
    (h : client.config.clusterArn ≠ "") :
    (RegisterContainerInstance client o).trace.registerCalls =
      [client.config.clusterArn] ∧
    (RegisterContainerInstance client o).trace.describeCalls = [] ∧
    (RegisterContainerInstance client o).trace.createCalls = [] ∧
    (RegisterContainerInstance client o).result = o.registerResults 0 ∧
    (RegisterContainerInstance client o).config = client.config := by
  unfold RegisterContainerInstance
  rw [if_neg h]
  exact ⟨rfl, rfl, rfl, rfl, rfl⟩

/-- C6 witness: direct registration against the configured identifier
"my-cluster", with the transport error propagated verbatim. -/
theorem C6_witness :
    (RegisterContainerInstance namedClusterClient directRegisterOracle).trace.registerCalls =
      [namedClusterClient.config.clusterArn] ∧
    (RegisterContainerInstance namedClusterClient directRegisterOracle).trace.describeCalls =
      [] ∧
    (RegisterContainerInstance namedClusterClient directRegisterOracle).trace.createCalls =
      [] ∧
    (RegisterContainerInstance namedClusterClient directRegisterOracle).result =
      directRegisterOracle.registerResults 0 ∧
    (RegisterContainerInstance namedClusterClient directRegisterOracle).config =
      namedClusterClient.config :=
  C6_nonempty_cluster_direct namedClusterClient directRegisterOracle (by decide)

/-- C7: with an empty configured cluster identifier, when the optimistic
registration fails and the describe reports a non-empty status different
from "ACTIVE", the operation fails with the descriptive policy error and
`CreateCluster` is never called. -/
theorem C7_inactive_cluster_policy_error (client : ApiECSClient) (o : Oracle)
    (e a s : String)
    (hempty : client.config.clusterArn = "")
    (hreg : o.registerResults 0 = Except.error e)
    (hdesc : describeCluster DEFAULT_CLUSTER_NAME o.describeResponse = Except.ok (a, s))
    (hs1 : s ≠ "") (hs2 : s ≠ "ACTIVE") :
    (RegisterContainerInstance client o).result =
      Except.error "Cluster is not available for registration" ∧
    (RegisterContainerInstance client o).trace.createCalls = [] ∧
    (RegisterContainerInstance client o).trace.registerCalls = [DEFAULT_CLUSTER_NAME] := by
  unfold RegisterContainerInstance
  rw [hempty, hreg, hdesc]
  simp only []
  rw [if_pos (And.intro hs1 hs2)]
  exact ⟨rfl, rfl, rfl⟩

/-- C7 witness: the policy failure at the concrete "INACTIVE" describe
response. -/
theorem C7_witness :
    (RegisterContainerInstance emptyClusterClient inactiveClusterOracle).result =
      Except.error "Cluster is not available for registration" ∧
    (RegisterContainerInstance emptyClusterClient inactiveClusterOracle).trace.createCalls =
      [] ∧
    (RegisterContainerInstance emptyClusterClient inactiveClusterOracle).trace.registerCalls =
      [DEFAULT_CLUSTER_NAME] :=
  C7_inactive_cluster_policy_error emptyClusterClient inactiveClusterOracle
    "denied" "arn:aws:ecs:us-east-1:123456789012:cluster/default" "INACTIVE"
    rfl rfl rfl (by decide) (by decide)

/-- C8: for every submitted container state change (mapped status "RUNNING"
or "STOPPED"), the built request carries exactly one network binding per
source port binding, element-wise in the same order with the source bind
address, host port and container port, and its exit code is set if and only
if the source change carries one. -/
theorem C8_bindings_preserved (client : ApiECSClient) (env : SubmitEnv)
    (change : ContainerStateChange)
    (h : mapStatusString change.status.toString = "RUNNING" ∨
         mapStatusString change.status.toString = "STOPPED") :
    (SubmitContainerStateChange client env change).request.map
        SubmitContainerRequest.networkBindings =
      some (change.portBindings.map
        (fun b => ⟨b.bindIp, Int.ofNat b.hostPort, Int.ofNat b.containerPort⟩)) ∧
    (SubmitContainerStateChange client env change).request.map
        (fun r => r.networkBindings.length) =
      some change.portBindings.length ∧
    (SubmitContainerStateChange client env change).request.map
        (fun r => r.exitCode.isSome) =
      some change.exitCode.isSome := by
  have hcond : ¬(mapStatusString change.status.toString ≠ "STOPPED" ∧
                 mapStatusString change.status.toString ≠ "RUNNING") := by
    rcases h with h | h
    · exact fun hc => hc.2 h
    · exact fun hc => hc.1 h
  unfold SubmitContainerStateChange
  rw [if_neg hcond]
  rw [submitOverWire_request]
  refine ⟨rfl, ?_, ?_⟩
  · simp [List.length_map]
  · cases change.exitCode with
    | none => rfl
    | some c => rfl

/-- C8 witness: the preservation at a concrete running change with two port
bindings and an exit code. -/
theorem C8_witness :
    (SubmitContainerStateChange subClient okSubmitEnv runningChangeTwoBindings).request.map
        SubmitContainerRequest.networkBindings =
      some (runningChangeTwoBindings.portBindings.map
        (fun b => ⟨b.bindIp, Int.ofNat b.hostPort, Int.ofNat b.containerPort⟩)) ∧
    (SubmitContainerStateChange subClient okSubmitEnv runningChangeTwoBindings).request.map
        (fun r => r.networkBindings.length) =
      some runningChangeTwoBindings.portBindings.length ∧
    (SubmitContainerStateChange subClient okSubmitEnv runningChangeTwoBindings).request.map
        (fun r => r.exitCode.isSome) =
      some runningChangeTwoBindings.exitCode.isSome :=
  C8_bindings_preserved subClient okSubmitEnv runningChangeTwoBindings (Or.inl (by decide))

/-- C9: with an empty configured cluster identifier, on every exit path of
the bootstrap the deferred write stores the default cluster name into the
client's configured cluster identifier; the arns returned by the describe or
the creation only bind the shadowing inner variable and are never the value
written. -/
theorem C9_config_overwritten_with_default (client : ApiECSClient) (o : Oracle)
    (h : client.config.clusterArn = "") :
    (RegisterContainerInstance client o).config.clusterArn = DEFAULT_CLUSTER_NAME := by
  unfold RegisterContainerInstance
  rw [h]
  cases o.registerResults 0 with
  | ok a => rfl
  | error e =>
      cases hd : describeCluster DEFAULT_CLUSTER_NAME o.describeResponse with
      | error e2 => rfl
      | ok p =>
          obtain ⟨a, s⟩ := p
          simp only []
          by_cases hs : s ≠ "" ∧ s ≠ "ACTIVE"
          · rw [if_pos hs]
            rfl
          · rw [if_neg hs]
            cases o.createResult with
            | error e3 => rfl
            | ok arn => rfl

/-- C9 witness: the deferred write at a concrete failing bootstrap. -/
theorem C9_witness :
    (RegisterContainerInstance emptyClusterClient directRegisterOracle).config.clusterArn =
      DEFAULT_CLUSTER_NAME :=
  C9_config_overwritten_with_default emptyClusterClient directRegisterOracle rfl

/-- C10: `SubmitContainerStateChange` performs no validation: every
container change whose status (the unset status included) maps to neither
"RUNNING" nor "STOPPED" yields nil with zero network calls and no request,
while `SubmitTaskStateChange` rejects any change with the unset task status
with a state-change error. -/
theorem C10_container_no_validation (client : ApiECSClient) (env : SubmitEnv)
    (change change2 : ContainerStateChange)
    (hc1 : mapStatusString change.status.toString ≠ "RUNNING")
    (hc2 : mapStatusString change.status.toString ≠ "STOPPED")
    (h2 : change2.taskStatus = TaskStatusNone) :
    SubmitContainerStateChange client env change = ⟨none, 0, none⟩ ∧
    (SubmitTaskStateChange client env change2).result.isSome = true := by
  constructor
  · unfold SubmitContainerStateChange
    rw [if_pos (And.intro hc2 hc1)]
  · unfold SubmitTaskStateChange
    rw [if_pos h2]
    rfl

/-- C10 witness: the unset-status change is silently skipped by the
container submitter and rejected by the task submitter. -/
theorem C10_witness :
    SubmitContainerStateChange subClient okSubmitEnv noneStatusChange = ⟨none, 0, none⟩ ∧
    (SubmitTaskStateChange subClient okSubmitEnv noneStatusChange).result.isSome = true :=
  C10_container_no_validation subClient okSubmitEnv noneStatusChange noneStatusChange
    (by decide) (by decide) rfl
